import Mathlib

/-!
Verification of the container-image activation subsystem.

This development gives a shallow embedding of the Go sources of the
image-activation pipeline: the path helpers from the standard library that
the code relies on (package path/filepath, restricted to the slash
separator used on Linux), the security validator (pkg/security/validator.go),
the tar extractor (pkg/devicemapper/extractor.go), the registry
(pkg/db, schema.go and repository.go), the cleanup command
(cmd/flyio-machine/commands/cleanup.go) and the five pipeline transition
handlers (pkg/fsm/states.go).  Filesystem and kernel effects are modelled
as explicit operation traces and oracles; machine integers are modelled as
Int (sizes) and Nat (identifiers), which is faithful because none of the
verified properties exercises 64-bit overflow.
-/

set_option autoImplicit false

namespace gostrings

/-- Auxiliary for goSplit: split a character list on a separator character,
in the manner of strings.Split (consecutive separators yield empty fields). -/
def splitChar (sep : Char) : List Char → List (List Char)
  | [] => [[]]
  | c :: cs =>
    match splitChar sep cs with
    | [] => [[]]
    | h :: t => if c = sep then [] :: h :: t else (c :: h) :: t

/-- Embedding of strings.Split(s, sep) for a one-character separator, the
only form the sources use (they split on the path separator). -/
def goSplit (s : String) (sep : Char) : List String :=
  (splitChar sep s.data).map String.mk

/-- Embedding of strings.HasPrefix(s, pre). -/
def goStartsWith (s pre : String) : Bool :=
  pre.data.isPrefixOf s.data

/-- Auxiliary for goContains: substring occurrence check on character lists. -/
def goContainsAux (sub : List Char) : List Char → Bool
  | [] => sub.isPrefixOf []
  | c :: cs => sub.isPrefixOf (c :: cs) || goContainsAux sub cs

/-- Embedding of strings.Contains(s, sub): some suffix of s starts with sub. -/
def goContains (s sub : String) : Bool := goContainsAux sub.data s.data

end gostrings

namespace gopath

/-- Embedding of filepath.IsAbs on Linux: the path begins with a slash. -/
def isAbs (p : String) : Bool := gostrings.goStartsWith p "/"

/-- Core of filepath.Clean: process the slash-separated components left to
right.  Empty and dot components are elided; a dotdot component pops the
previous component when one is available and is not itself a dotdot, is
dropped at the root of a rooted path, and is kept otherwise. -/
def cleanComponents (rooted : Bool) (acc : List String) : List String → List String
  | [] => acc
  | c :: rest =>
    if c = "" ∨ c = "." then cleanComponents rooted acc rest
    else if c = ".." then
      match acc.getLast? with
      | some last =>
        if last = ".." then cleanComponents rooted (acc ++ [".."]) rest
        else cleanComponents rooted acc.dropLast rest
      | none =>
        if rooted then cleanComponents rooted acc rest
        else cleanComponents rooted [".."] rest
    else cleanComponents rooted (acc ++ [c]) rest

/-- Embedding of filepath.Clean on Linux (the Plan 9 Clean algorithm). -/
def clean (p : String) : String :=
  if p = "" then "."
  else
    let rooted := isAbs p
    let comps := cleanComponents rooted [] (gostrings.goSplit p '/')
    if rooted then "/" ++ String.intercalate "/" comps
    else if comps = [] then "."
    else String.intercalate "/" comps

/-- Embedding of filepath.Join for two elements: join the non-empty
elements with a slash and Clean the result. -/
def join2 (a b : String) : String :=
  if a = "" ∧ b = "" then ""
  else if a = "" then clean b
  else if b = "" then clean a
  else clean (a ++ "/" ++ b)

/-- Embedding of filepath.Dir: everything up to the final slash (kept),
Cleaned; a path without a slash has directory dot. -/
def dir (p : String) : String :=
  let parts := gostrings.goSplit p '/'
  if parts.length ≤ 1 then clean ""
  else clean (String.intercalate "/" parts.dropLast ++ "/")

/-- Embedding of filepath.Base: the last non-empty slash-separated
component; dot for the empty path, slash for an all-slash path. -/
def base (p : String) : String :=
  if p = "" then "."
  else
    match ((gostrings.goSplit p '/').filter (fun c => c ≠ "")).getLast? with
    | some c => c
    | none => "/"

end gopath

namespace security

/-- Error kinds raised by the validator, mirroring the fmt.Errorf sites of
pkg/security/validator.go.  The first two are the PathViolation kinds, the
third is SymlinkEscape, then FileTooLarge, TotalTooLarge and the two
CompressionBomb conditions. -/
inductive SecurityError
  | absolutePath (p : String)
  | pathTraversal (p : String)
  | symlinkEscape (symlink target resolved : String)
  | fileTooLarge (size max : Int)
  | totalTooLarge (total max : Int)
  | zeroCompressedSize
  | compressionBomb (compressed uncompressed : Int)
deriving Repr, DecidableEq

/-- Rendering of a validator error to the message stored as error_message,
mirroring the fmt.Errorf format strings (numerals elided). -/
def SecurityError.message : SecurityError → String
  | .absolutePath p => "security: absolute path not allowed: " ++ p
  | .pathTraversal p => "security: path traversal detected: " ++ p
  | .symlinkEscape s t r =>
      "security: path traversal detected: symlink " ++ s ++ " -> " ++ t ++ " resolves to " ++ r
  | .fileTooLarge _ _ => "security: file size exceeds max"
  | .totalTooLarge _ _ => "security: total extracted size exceeds max"
  | .zeroCompressedSize => "security: compressed size cannot be zero"
  | .compressionBomb _ _ => "security: compression ratio exceeds max"

/-- Configuration of the Validator (NewValidator arguments).  The Go field
maxCompressionRatio is a float64; the reference configuration uses the
integral default 100.0, and the comparison uncompressed/compressed > max
is modelled exactly by integer cross-multiplication, so the bound is
carried as an Int here. -/
structure Config where
  maxFileSize : Int
  maxTotalSize : Int
  maxCompressionRate : Int
deriving Repr, DecidableEq

/-- Embedding of Validator.ValidatePath: reject absolute entry names, then
reject names whose Cleaned form has the two-character string dotdot as a
prefix.  Purely textual, no filesystem access. -/
def validatePath (tarPath : String) : Except SecurityError Unit :=
  if gopath.isAbs tarPath then .error (.absolutePath tarPath)
  else
    let cleaned := gopath.clean tarPath
    if gostrings.goStartsWith cleaned ".." then .error (.pathTraversal tarPath)
    else .ok ()

/-- Depth counter of ValidateSymlink: over the slash-separated parts of the
cleaned resolved path, a dotdot part subtracts one and every other
non-empty, non-dot part adds one. -/
def symlinkDepth (cleanResolved : String) : Int :=
  (gostrings.goSplit cleanResolved '/').foldl
    (fun d part =>
      if part = ".." then d - 1
      else if part ≠ "" ∧ part ≠ "." then d + 1
      else d) 0

/-- Embedding of Validator.ValidateSymlink: absolute targets are accepted
as container-relative; a relative target is resolved against the symlink's
directory, cleaned, and rejected exactly when the depth counter of the
resolution is negative. -/
def validateSymlink (symlinkPath targetPath : String) : Except SecurityError Unit :=
  if gopath.isAbs targetPath then .ok ()
  else
    let symlinkDir := gopath.dir symlinkPath
    let resolvedPath := gopath.join2 symlinkDir targetPath
    let cleanResolved := gopath.clean resolvedPath
    if symlinkDepth cleanResolved < 0 then
      .error (.symlinkEscape symlinkPath targetPath cleanResolved)
    else .ok ()

/-- Embedding of Validator.ValidateFileSize. -/
def validateFileSize (cfg : Config) (size : Int) : Except SecurityError Unit :=
  if size > cfg.maxFileSize then .error (.fileTooLarge size cfg.maxFileSize)
  else .ok ()

/-- Embedding of Validator.AddExtractedSize: the accumulator is bumped
first and the bound checked after, so the new total is returned together
with the possible error. -/
def addExtractedSize (cfg : Config) (currentTotalSize size : Int) :
    Int × Option SecurityError :=
  let t := currentTotalSize + size
  (t, if t > cfg.maxTotalSize then some (.totalTooLarge t cfg.maxTotalSize) else none)

/-- Embedding of Validator.ValidateCompressionRatio: a zero compressed size
is rejected, then the ratio bound uncompressed/compressed > max is checked,
written multiplicatively (exact for the positive compressed sizes the
caller passes). -/
def validateCompression (cfg : Config) (compressedSize uncompressedSize : Int) :
    Except SecurityError Unit :=
  if compressedSize = 0 then .error .zeroCompressedSize
  else if uncompressedSize > cfg.maxCompressionRate * compressedSize then
    .error (.compressionBomb compressedSize uncompressedSize)
  else .ok ()

end security

namespace devicemapper

/-- Tar header type flags occurring in the extractor's switch, plus the
uncommon kinds it leaves to the default (absent) case: hard links,
character devices, block devices, fifos and anything else. -/
inductive TarType
  | dir
  | reg
  | symlink
  | link
  | chr
  | blk
  | fifo
  | other
deriving Repr, DecidableEq

/-- One tar entry as the extractor sees it: the header name, type flag,
declared size and link target.  The writeFails oracle states that the
io.Copy of this entry's contents returns an error midway. -/
structure TarEntry where
  name : String
  typeflag : TarType
  size : Int := 0
  linkname : String := ""
  writeFails : Bool := false
deriving Repr, DecidableEq

/-- Filesystem operations the extractor performs on the destination tree,
in order: os.MkdirAll, os.OpenFile with O_CREATE, a completed io.Copy, an
io.Copy that failed midway leaving a partial file, os.Remove (never emitted
by this extractor, recorded so that its absence is expressible) and
os.Symlink. -/
inductive FsOp
  | mkdirAll (path : String)
  | createFile (path : String)
  | writeFile (path : String) (size : Int)
  | writePartial (path : String)
  | removeFile (path : String)
  | symlink (linkTarget path : String)
deriving Repr, DecidableEq

/-- Errors ExtractTarball returns: a validator rejection or a failed
content write. -/
inductive ExtractError
  | security (e : security.SecurityError)
  | writeFailed (path : String)
deriving Repr, DecidableEq

/-- Rendering of an extraction error to the message stored as
error_message. -/
def ExtractError.message : ExtractError → String
  | .security e => e.message
  | .writeFailed p => "failed to write file: " ++ p

/-- Outcome of an extraction: the ordered list of filesystem operations
performed, the validator's final size accumulator, and the error that
aborted the run, when any. -/
structure ExtractResult where
  ops : List FsOp
  total : Int
  err : Option ExtractError
deriving Repr, DecidableEq

/-- Processing of a single tar entry, mirroring the loop body of
ExtractTarball: validate the path, join destination and name, then switch
on the type flag.  Directories are MkdirAll-ed; regular files go through
size and total checks, parent creation, open, write; symlinks go through
symlink validation and creation; every other type flag falls through the
switch with no action.  Returns the operations performed for this entry,
the updated accumulator, and the error when the entry aborts extraction. -/
def processEntry (cfg : security.Config) (destDir : String) (total : Int)
    (e : TarEntry) : List FsOp × Int × Option ExtractError :=
  match security.validatePath e.name with
  | .error se => ([], total, some (.security se))
  | .ok () =>
    let target := gopath.join2 destDir e.name
    match e.typeflag with
    | .dir => ([.mkdirAll target], total, none)
    | .reg =>
      match security.validateFileSize cfg e.size with
      | .error se => ([], total, some (.security se))
      | .ok () =>
        match security.addExtractedSize cfg total e.size with
        | (t, some se) => ([], t, some (.security se))
        | (t, none) =>
          if e.writeFails then
            ([.mkdirAll (gopath.dir target), .createFile target, .writePartial target],
             t, some (.writeFailed target))
          else
            ([.mkdirAll (gopath.dir target), .createFile target, .writeFile target e.size],
             t, none)
    | .symlink =>
      match security.validateSymlink e.name e.linkname with
      | .error se => ([], total, some (.security se))
      | .ok () => ([.symlink e.linkname target], total, none)
    | _ => ([], total, none)

/-- Entry loop of ExtractTarball: entries are processed in archive order,
accumulating operations and the extracted total; the first failing entry
aborts the loop with the operations performed so far. -/
def extractLoop (cfg : security.Config) (destDir : String) :
    List TarEntry → Int → List FsOp → ExtractResult
  | [], total, ops => ⟨ops, total, none⟩
  | e :: rest, total, ops =>
    match processEntry cfg destDir total e with
    | (newOps, t, some err) => ⟨ops ++ newOps, t, some err⟩
    | (newOps, t, none) => extractLoop cfg destDir rest t (ops ++ newOps)

/-- Embedding of ExtractTarball: Reset the validator (the accumulator
starts at zero), run the entry loop, then check the compression bound of
the archive's on-disk size against the final accumulator. -/
def ExtractTarball (cfg : security.Config) (tarSize : Int) (destDir : String)
    (entries : List TarEntry) : ExtractResult :=
  let r := extractLoop cfg destDir entries 0 []
  match r.err with
  | some _ => r
  | none =>
    match security.validateCompression cfg tarSize r.total with
    | .error se => { r with err := some (.security se) }
    | .ok () => r

end devicemapper

namespace db

/-- Status constants of pkg/db/schema.go. -/
def StatusPending : String := "pending"

/-- Status constant downloading. -/
def StatusDownloading : String := "downloading"

/-- Status constant ready. -/
def StatusReady : String := "ready"

/-- Status constant failed. -/
def StatusFailed : String := "failed"

/-- Statuses admitted by the CHECK constraint of the images table in the
schema: CHECK(status IN (pending, downloading, ready, failed)).  SQLite
enforces this constraint on INSERT and UPDATE alike. -/
def validStatuses : List String :=
  [StatusPending, StatusDownloading, StatusReady, StatusFailed]

/-- One row of the images table (struct Image of pkg/db/schema.go).  The
nullable columns device_path, base_device_id, snapshot_id and
error_message are scanned into Go zero values by the repository, so they
are carried here directly as the zero-defaulted types the handlers
compare against. -/
structure Image where
  id : Nat
  s3Key : String
  sha256 : String
  status : String
  devicePath : String := ""
  baseDeviceID : Nat := 0
  snapshotID : Nat := 0
  errorMessage : String := ""
deriving Repr, DecidableEq

/-- State of the SQLite file: the images table with its AUTOINCREMENT
counter, and the single device_sequence row, seeded with next_device_id
equal to one. -/
structure DBState where
  images : List Image
  nextImageId : Nat := 1
  nextDeviceId : Nat := 1
deriving Repr, DecidableEq

/-- Embedding of Repository.GetByS3Key: the row with the given key, none
when absent. -/
def getByS3Key (st : DBState) (k : String) : Option Image :=
  st.images.find? (fun i => i.s3Key == k)

/-- Embedding of Repository.Create: INSERT a row; the UNIQUE constraint on
s3_key and the CHECK constraint on status are enforced, and the assigned
id is returned on the record. -/
def createImage (st : DBState) (img : Image) : Except String (Image × DBState) :=
  if st.images.any (fun i => i.s3Key == img.s3Key) then
    .error "UNIQUE constraint failed: images.s3_key"
  else if ¬ validStatuses.contains img.status then
    .error "CHECK constraint failed: status"
  else
    let inserted := { img with id := st.nextImageId }
    .ok (inserted,
      { st with images := st.images ++ [inserted], nextImageId := st.nextImageId + 1 })

/-- Embedding of Repository.Update: overwrite the mutable columns of the
row with the record's id; the CHECK constraint on status is enforced, and
zero affected rows is an error (image not found). -/
def updateImage (st : DBState) (img : Image) : Except String DBState :=
  if ¬ validStatuses.contains img.status then
    .error "CHECK constraint failed: status"
  else if st.images.any (fun i => i.id == img.id) then
    .ok { st with images :=
      st.images.map (fun i => if i.id == img.id then { img with id := i.id } else i) }
  else .error "image not found"

/-- Embedding of Repository.UpdateStatus: partial update of status and
error_message by id; the CHECK constraint is enforced.  The Go code does
not inspect RowsAffected here, so updating an absent id succeeds. -/
def updateStatus (st : DBState) (id : Nat) (status errorMessage : String) :
    Except String DBState :=
  if ¬ validStatuses.contains status then
    .error "CHECK constraint failed: status"
  else
    .ok { st with images :=
      st.images.map (fun i =>
        if i.id == id then { i with status := status, errorMessage := errorMessage } else i) }

/-- Failure oracle for the transaction inside AllocateNextDeviceID: the
SELECT, the UPDATE or the COMMIT may fail, in which case the deferred
rollback leaves the stored value untouched. -/
inductive TxFail
  | ok
  | onQuery
  | onUpdate
  | onCommit
deriving Repr, DecidableEq

/-- Embedding of Repository.AllocateNextDeviceID: inside one transaction,
read next_device_id from the single device_sequence row, write back the
read value plus one, commit, and return the read value.  On any failure
the transaction rolls back and the stored value is unchanged. -/
def allocateNextDeviceID (f : TxFail) (st : DBState) : Except String Nat × DBState :=
  match f with
  | .ok => (.ok st.nextDeviceId, { st with nextDeviceId := st.nextDeviceId + 1 })
  | .onQuery => (.error "failed to query device sequence", st)
  | .onUpdate => (.error "failed to update device sequence", st)
  | .onCommit => (.error "failed to commit transaction", st)

/-- Run of k successive successful calls to AllocateNextDeviceID,
collecting the returned values in order. -/
def allocateRun (st : DBState) : Nat → List Nat × DBState
  | 0 => ([], st)
  | Nat.succ k =>
    match allocateNextDeviceID .ok st with
    | (.ok v, st1) =>
      let (vs, st2) := allocateRun st1 k
      (v :: vs, st2)
    | (.error _, st1) => ([], st1)

end db

namespace commands

/-- Oracles for the host effects of cleanupImageResources: whether the
device manager is present (non-nil), and whether the os.Stat and removal
calls on the work tree find their targets and fail.  DeleteDevice failures
only print warnings in the code and so need no oracle. -/
structure CleanupEnv where
  dmPresent : Bool
  extractedExists : Bool
  extractedRemoveFails : Bool
  downloadExists : Bool
  downloadRemoveFails : Bool
deriving Repr, DecidableEq

/-- Embedding of cleanupImageResources of cmd/flyio-machine/commands/cleanup.go:
tear down snapshot and base device (errors are warnings only; the record's
in-memory snapshot_id, base_device_id and device_path fields are zeroed),
remove the extracted tree and the downloaded tarball (failures abort), then
set the record status to the string cleaned and persist it with
Repository.Update. -/
def cleanupImageResources (env : CleanupEnv) (st : db.DBState) (img0 : db.Image) :
    Except String db.DBState :=
  let img1 :=
    if env.dmPresent ∧ img0.snapshotID ≠ 0 then { img0 with snapshotID := 0 } else img0
  let img2 :=
    if env.dmPresent ∧ img1.baseDeviceID > 0 then
      { img1 with baseDeviceID := 0, devicePath := "" }
    else img1
  if env.extractedExists ∧ env.extractedRemoveFails then
    .error "failed to remove extracted files"
  else if env.downloadExists ∧ env.downloadRemoveFails then
    .error "failed to remove download"
  else
    let img3 := { img2 with status := "cleaned" }
    match db.updateImage st img3 with
    | .error e => .error ("failed to update database: " ++ e)
    | .ok st1 => .ok st1

end commands

namespace fsm

/-- Response payload accumulated across transitions (struct ImageResponse
of pkg/fsm/types.go). -/
structure ImageResponse where
  imageID : Nat := 0
  sha256 : String := ""
  downloadPath : String := ""
  downloadSize : Int := 0
  extractedPath : String := ""
  devicePath : String := ""
  snapshotID : Nat := 0
  status : String := ""
  errorMessage : String := ""
deriving Repr, DecidableEq

/-- Device metadata returned by the manager (struct DeviceInfo of
pkg/devicemapper/interface.go). -/
structure DeviceInfo where
  devicePath : String
  snapshotID : Nat := 0
  size : Int := 0
deriving Repr, DecidableEq

/-- Behaviour of a devicemapper.Manager as the handlers observe it: each
operation either succeeds or returns an error message.  The Linux manager
and the non-Linux stub are both instances. -/
structure ManagerModel where
  createDevice : String → Except String DeviceInfo
  createSnapshot : String → Nat → Except String DeviceInfo
  mountDevice : String → String → Except String Unit
  unmountDevice : String → Except String Unit
  deleteDevice : String → Except String Unit

/-- The non-Linux StubManager: every mutating operation fails immediately
with a message naming the unsupported platform (devicemapper_stub.go). -/
def stubManager (goos : String) : ManagerModel where
  createDevice := fun _ => .error ("devicemapper not supported on " ++ goos)
  createSnapshot := fun _ _ => .error ("devicemapper not supported on " ++ goos)
  mountDevice := fun _ _ => .error ("devicemapper not supported on " ++ goos)
  unmountDevice := fun _ => .error ("devicemapper not supported on " ++ goos)
  deleteDevice := fun _ => .error ("devicemapper not supported on " ++ goos)

/-- A Linux manager on which every operation succeeds, producing the node
paths of linux.go: flyio-N under the mapper directory for a base device
and flyio-snapshot-N for a snapshot, whose DeviceInfo carries the passed
snapshot id. -/
def okManager : ManagerModel where
  createDevice := fun deviceID =>
    .ok { devicePath := "/dev/mapper/flyio-" ++ deviceID, snapshotID := 0, size := 1073741824 }
  createSnapshot := fun _ snapshotID =>
    .ok { devicePath := "/dev/mapper/flyio-snapshot-" ++ toString snapshotID,
          snapshotID := snapshotID, size := 1073741824 }
  mountDevice := fun _ _ => .ok ()
  unmountDevice := fun _ => .ok ()
  deleteDevice := fun _ => .ok ()

/-- Environment of one pipeline run: the Machine dependencies
(work directory, retry bound, manager, validator configuration) plus
oracles for the collaborators: the object-store download outcome
(sha256 and size), the archive the download produces, the on-disk archive
size, and the copyDir outcome.  Directory creations and removals under the
work tree are modelled as succeeding. -/
structure Env where
  workDir : String
  maxRetries : Nat
  dmManager : Option ManagerModel
  downloadResult : Except String (String × Int)
  archive : List devicemapper.TarEntry
  archiveSize : Int
  copyResult : Except String Unit
  cfg : security.Config

/-- World state a handler can read and write: the registry database and
the number of object-store fetches performed so far. -/
structure World where
  db : db.DBState
  fetchCount : Nat
deriving Repr, DecidableEq

/-- Result of one transition handler: ordinary completion with the new
response (the engine advances to the next state), an ordinary error (the
engine retries the state), or fsm.Abort (the engine enters the terminal
failed state). -/
inductive Outcome
  | ok (resp : ImageResponse)
  | retryErr (msg : String)
  | abortErr (msg : String)
deriving Repr, DecidableEq

/-- Embedding of Machine.handleCheckDB: look the key up; when present,
copy id, digest and status into the response and return (with or without
the ready short-circuit log); when absent, insert a pending row and record
its id. -/
def handleCheckDB (env : Env) (retryCount : Nat) (s3Key : String)
    (resp? : Option ImageResponse) (w : World) : Outcome × World :=
  if env.maxRetries ≤ retryCount then (.abortErr "max retries exceeded", w)
  else
    let resp := resp?.getD {}
    match db.getByS3Key w.db s3Key with
    | some img =>
      (.ok { resp with imageID := img.id, sha256 := img.sha256, status := img.status }, w)
    | none =>
      match db.createImage w.db { id := 0, s3Key := s3Key, sha256 := "", status := db.StatusPending } with
      | .error e => (.retryErr ("failed to create image record: " ++ e), w)
      | .ok (img, st1) =>
        (.ok { resp with imageID := img.id }, { w with db := st1 })

/-- Embedding of Machine.handleDownload: set status downloading, download
the object (one fetch), record sha256, path and size on the response, and
persist the digest on the row when it exists. -/
def handleDownload (env : Env) (retryCount : Nat) (s3Key : String)
    (resp? : Option ImageResponse) (w : World) : Outcome × World :=
  if env.maxRetries ≤ retryCount then (.abortErr "max retries exceeded", w)
  else
    match resp? with
    | none => (.abortErr "response not initialized", w)
    | some resp =>
      match db.updateStatus w.db resp.imageID db.StatusDownloading "" with
      | .error e => (.retryErr ("failed to update status: " ++ e), w)
      | .ok st1 =>
        let localPath :=
          gopath.join2 (gopath.join2 env.workDir "downloads") (gopath.base s3Key)
        let w1 : World := { db := st1, fetchCount := w.fetchCount + 1 }
        match env.downloadResult with
        | .error e => (.retryErr ("failed to download from S3: " ++ e), w1)
        | .ok (sha, size) =>
          let resp1 :=
            { resp with sha256 := sha, downloadPath := localPath, downloadSize := size }
          match db.getByS3Key w1.db s3Key with
          | none => (.ok resp1, w1)
          | some img =>
            match db.updateImage w1.db { img with sha256 := sha } with
            | .error e => (.retryErr ("failed to update image: " ++ e), w1)
            | .ok st2 => (.ok resp1, { w1 with db := st2 })

/-- Embedding of Machine.handleValidate: bound the downloaded size by the
per-file ceiling, prepare a fresh extraction directory named from the key,
and extract the archive under the validator; validator rejections mark the
row failed and abort. -/
def handleValidate (env : Env) (retryCount : Nat) (s3Key : String)
    (resp? : Option ImageResponse) (w : World) : Outcome × World :=
  if env.maxRetries ≤ retryCount then (.abortErr "max retries exceeded", w)
  else
    match resp? with
    | none => (.abortErr "response not initialized", w)
    | some resp =>
      match security.validateFileSize env.cfg resp.downloadSize with
      | .error se =>
        let st1 :=
          (db.updateStatus w.db resp.imageID db.StatusFailed se.message).toOption.getD w.db
        (.abortErr se.message, { w with db := st1 })
      | .ok () =>
        let extractDir :=
          gopath.join2 (gopath.join2 env.workDir "extracted") (gopath.base s3Key)
        let r := devicemapper.ExtractTarball env.cfg env.archiveSize extractDir env.archive
        match r.err with
        | some err =>
          let st1 :=
            (db.updateStatus w.db resp.imageID db.StatusFailed err.message).toOption.getD w.db
          (.abortErr ("tar extraction failed: " ++ err.message), { w with db := st1 })
        | none => (.ok { resp with extractedPath := extractDir }, w)

/-- Embedding of Machine.handleCreateDevice: skip when the manager is nil;
otherwise allocate a base id from the shared sequence, call CreateDevice,
and on any manager error record a warning on the response and return
success without touching the row.  On success mount, copy the extracted
tree, unmount, persist base_device_id and device_path on the row and point
the response at the mount path. -/
def handleCreateDevice (env : Env) (retryCount : Nat) (s3Key : String)
    (resp? : Option ImageResponse) (w : World) : Outcome × World :=
  if env.maxRetries ≤ retryCount then (.abortErr "max retries exceeded", w)
  else
    match resp? with
    | none => (.abortErr "response not initialized", w)
    | some resp =>
      match env.dmManager with
      | none => (.ok resp, w)
      | some mgr =>
        match db.allocateNextDeviceID .ok w.db with
        | (.error e, st1) =>
          (.retryErr ("failed to allocate base device ID: " ++ e), { w with db := st1 })
        | (.ok baseDeviceID, st1) =>
          let deviceID := toString baseDeviceID
          let w1 : World := { w with db := st1 }
          match mgr.createDevice deviceID with
          | .error e =>
            (.ok { resp with errorMessage := "devicemapper warning: " ++ e }, w1)
          | .ok deviceInfo =>
            let mountPath :=
              gopath.join2 (gopath.join2 env.workDir "mounts") deviceID
            match mgr.mountDevice deviceInfo.devicePath mountPath with
            | .error e => (.retryErr ("failed to mount device: " ++ e), w1)
            | .ok () =>
              match env.copyResult with
              | .error e =>
                let st2 :=
                  (db.updateStatus w1.db resp.imageID db.StatusFailed e).toOption.getD w1.db
                (.abortErr ("copy to device failed: " ++ e), { w1 with db := st2 })
              | .ok () =>
                match mgr.unmountDevice mountPath with
                | .error e => (.retryErr ("failed to unmount device: " ++ e), w1)
                | .ok () =>
                  let resp1 := { resp with devicePath := deviceInfo.devicePath }
                  match db.getByS3Key w1.db s3Key with
                  | none => (.ok { resp1 with extractedPath := mountPath }, w1)
                  | some img =>
                    match db.updateImage w1.db
                        { img with baseDeviceID := baseDeviceID,
                                   devicePath := deviceInfo.devicePath } with
                    | .error e => (.retryErr ("failed to update image: " ++ e), w1)
                    | .ok st2 =>
                      (.ok { resp1 with extractedPath := mountPath }, { w1 with db := st2 })

/-- Tail of Machine.handleComplete: mark the image ready through
UpdateStatus on the response's image id and emit the final response. -/
def markReady (resp : ImageResponse) (w : World) : Outcome × World :=
  match db.updateStatus w.db resp.imageID db.StatusReady "" with
  | .error e => (.retryErr ("failed to update status: " ++ e), w)
  | .ok st1 => (.ok { resp with status := db.StatusReady }, { w with db := st1 })

/-- Embedding of Machine.handleComplete: re-read the row; when the manager
is present and the row has a device path, reuse a non-zero snapshot_id or
allocate a fresh one, call CreateSnapshot, and on success persist the
returned snapshot id; a manager error containing the text "not supported"
degrades gracefully, any other error marks the row failed and aborts.
In every non-failing branch the row is then marked ready. -/
def handleComplete (env : Env) (retryCount : Nat) (s3Key : String)
    (resp? : Option ImageResponse) (w : World) : Outcome × World :=
  if env.maxRetries ≤ retryCount then (.abortErr "max retries exceeded", w)
  else
    let resp := resp?.getD { status := "complete" }
    match db.getByS3Key w.db s3Key with
    | none => (.abortErr "image not found in database", w)
    | some img =>
      match env.dmManager with
      | none => markReady resp w
      | some mgr =>
        if img.devicePath = "" then markReady resp w
        else
          let snapAlloc : Except String Nat × db.DBState :=
            if img.snapshotID = 0 then db.allocateNextDeviceID .ok w.db
            else (.ok img.snapshotID, w.db)
          match snapAlloc with
          | (.error e, st1) =>
            let st2 :=
              (db.updateStatus st1 img.id db.StatusFailed
                ("snapshot ID allocation failed: " ++ e)).toOption.getD st1
            (.abortErr ("snapshot ID allocation failed: " ++ e), { w with db := st2 })
          | (.ok snapshotID, st1) =>
            let w1 : World := { w with db := st1 }
            match mgr.createSnapshot (toString img.baseDeviceID) snapshotID with
            | .error e =>
              if gostrings.goContains e "not supported" then
                markReady { resp with errorMessage := "snapshot unavailable: " ++ e } w1
              else
                let st2 :=
                  (db.updateStatus w1.db img.id db.StatusFailed
                    ("snapshot creation failed: " ++ e)).toOption.getD w1.db
                (.abortErr ("snapshot creation failed: " ++ e), { w1 with db := st2 })
            | .ok snapshotInfo =>
              let resp1 :=
                { resp with snapshotID := snapshotInfo.snapshotID,
                            devicePath := img.devicePath }
              match db.updateImage w1.db { img with snapshotID := snapshotInfo.snapshotID } with
              | .error e => (.retryErr ("failed to update image: " ++ e), w1)
              | .ok st2 => markReady resp1 { w1 with db := st2 }

/-- One attempt of the registered chain check_db, download, validate,
create_device, complete (machine.go Register): each ordinary completion
advances to the next state with the accumulated response, and any error
stops the attempt (the external engine would retry or fail). -/
def runPipeline (env : Env) (s3Key : String) (w : World) : Outcome × World :=
  match handleCheckDB env 0 s3Key none w with
  | (.ok r1, w1) =>
    match handleDownload env 0 s3Key (some r1) w1 with
    | (.ok r2, w2) =>
      match handleValidate env 0 s3Key (some r2) w2 with
      | (.ok r3, w3) =>
        match handleCreateDevice env 0 s3Key (some r3) w3 with
        | (.ok r4, w4) => handleComplete env 0 s3Key (some r4) w4
        | other => other
      | other => other
    | other => other
  | other => other

end fsm

section PathClaims

/-- Helper: the empty string is not absolute. -/
lemma isAbs_empty_false : gopath.isAbs "" = false := rfl

/-- Helper: cleaning an absolute path yields a slash-rooted string. -/
lemma clean_of_isAbs (p : String) (h : gopath.isAbs p = true) :
    ∃ s, gopath.clean p = "/" ++ s := by
  refine ⟨String.intercalate "/"
    (gopath.cleanComponents (gopath.isAbs p) [] (gostrings.goSplit p '/')), ?_⟩
  have hp : p ≠ "" := by
    intro he
    rw [he, isAbs_empty_false] at h
    exact Bool.false_ne_true h
  rw [gopath.clean, if_neg hp, h]
  simp [h]

/-- Helper: a slash-rooted string never has the dotdot string as a prefix. -/
lemma goStartsWith_slash_dotdot (s : String) :
    gostrings.goStartsWith ("/" ++ s) ".." = false := by
  have hdata : ("/" ++ s).data = '/' :: s.data := by
    rw [String.data_append]
    rfl
  rw [gostrings.goStartsWith, hdata]
  rfl

/-- Claim C9: ValidatePath rejects every entry name whose Cleaned form has
the two-character string dotdot as a string prefix (not merely those whose
first component is the dotdot component), answering with the
path-traversal error; in particular the harmless single-component name
dotdotconfig is rejected. -/
theorem validatePath_rejects_cleaned_dotdot (name : String)
    (h : gostrings.goStartsWith (gopath.clean name) ".." = true) :
    security.validatePath name = .error (.pathTraversal name) := by
  have habs : gopath.isAbs name = false := by
    cases habs : gopath.isAbs name with
    | false => rfl
    | true =>
      obtain ⟨s, hs⟩ := clean_of_isAbs name habs
      rw [hs, goStartsWith_slash_dotdot] at h
      exact absurd h Bool.false_ne_true
  rw [security.validatePath, if_neg (by simp [habs]), if_pos h]

/-- Witness for validatePath_rejects_cleaned_dotdot at the concrete entry
name dotdotconfig, whose cleaned form is itself. -/
theorem validatePath_rejects_cleaned_dotdot_witness :
    gostrings.goStartsWith (gopath.clean "..config") ".." = true ∧
    security.validatePath "..config" = .error (.pathTraversal "..config") :=
  ⟨rfl, validatePath_rejects_cleaned_dotdot "..config" rfl⟩

/-- Counterexample for claim C4: the symlink target dotdot dotdot etc
passwd placed at the extraction root is accepted by ValidateSymlink (its
final depth is zero, not negative), contradicting the claim that it is
rejected when the symlink is at or near the root. -/
theorem validateSymlink_passwd_near_root_accepted :
    security.validateSymlink "foo" "../../etc/passwd" = .ok () := rfl

/-- Claim C4 (amended): ValidateSymlink accepts every absolute target and
otherwise fails with SymlinkEscape exactly when the depth counter of the
cleaned resolution of the target against the symlink's directory is
negative; in particular a nested relative link into a sibling directory is
accepted, the dotdot dotdot etc passwd target is accepted at every
location (its trailing components restore the depth), and only targets
whose resolution ends above the root, such as dotdot dotdot from the root,
are rejected. -/
theorem validateSymlink_depth_rule :
    (∀ loc target : String, gopath.isAbs target = false →
      (security.validateSymlink loc target =
          .error (.symlinkEscape loc target
            (gopath.clean (gopath.join2 (gopath.dir loc) target))) ↔
        security.symlinkDepth
          (gopath.clean (gopath.join2 (gopath.dir loc) target)) < 0)) ∧
    (∀ loc target : String, gopath.isAbs target = true →
      security.validateSymlink loc target = .ok ()) ∧
    security.validateSymlink "etc/fonts/conf.d/foo" "../conf.avail/bar" = .ok () ∧
    security.validateSymlink "a/foo" "../../etc/passwd" = .ok () ∧
    security.validateSymlink "foo" "../.." =
      .error (.symlinkEscape "foo" "../.." "../..") := by
  refine ⟨?_, ?_, rfl, rfl, rfl⟩
  · intro loc target habs
    rw [security.validateSymlink, if_neg (by simp [habs])]
    by_cases hd : security.symlinkDepth
        (gopath.clean (gopath.join2 (gopath.dir loc) target)) < 0
    · rw [if_pos hd]
      simp [hd]
    · rw [if_neg hd]
      simp [hd]
  · intro loc target habs
    rw [security.validateSymlink, if_pos (by simp [habs])]

/-- Witness for validateSymlink_depth_rule: the acceptance of an absolute
target and the rejection of a triple dotdot target at the root, both
through the general rule. -/
theorem validateSymlink_depth_rule_witness :
    security.validateSymlink "bin/sh" "/usr/bin/dash" = .ok () ∧
    security.validateSymlink "x" "../../.." =
      .error (.symlinkEscape "x" "../../.." "../../..") := by
  refine ⟨validateSymlink_depth_rule.2.1 "bin/sh" "/usr/bin/dash" rfl, ?_⟩
  exact (validateSymlink_depth_rule.1 "x" "../../.." rfl).mpr (by decide)

end PathClaims

section RegistryClaims

/-- Helper: a run of k successful allocations returns the k consecutive
values from the stored one and bumps the stored value by k, leaving the
images table untouched. -/
lemma allocateRun_spec : ∀ (k : Nat) (st : db.DBState),
    db.allocateRun st k =
      (List.range' st.nextDeviceId k,
       { st with nextDeviceId := st.nextDeviceId + k }) := by
  intro k
  induction k with
  | zero => intro st; simp [db.allocateRun, List.range']
  | succ n ih =>
    intro st
    rw [db.allocateRun]
    simp only [db.allocateNextDeviceID, ih, List.range'_succ]
    refine Prod.ext rfl ?_
    simp [Nat.add_assoc, Nat.add_comm 1 n]

/-- Claim C7: every successful AllocateNextDeviceID call returns the
stored sequence value and leaves the stored value at the returned value
plus one; k successive successful calls starting from stored value s
return exactly s, s+1, up to s+k-1 with no duplicates and no gaps, and a
failed (rolled back) call leaves the stored value unchanged. -/
theorem allocateNextDeviceID_sequence (st : db.DBState) (k : Nat) :
    (db.allocateRun st k).1 = List.range' st.nextDeviceId k ∧
    (db.allocateRun st k).2.nextDeviceId = st.nextDeviceId + k ∧
    (db.allocateRun st k).2.images = st.images ∧
    ((db.allocateRun st k).1).Nodup ∧
    (db.allocateNextDeviceID .ok st).1 = .ok st.nextDeviceId ∧
    (db.allocateNextDeviceID .ok st).2.nextDeviceId = st.nextDeviceId + 1 ∧
    (∀ f : db.TxFail, f ≠ .ok → (db.allocateNextDeviceID f st).2 = st) := by
  refine ⟨?_, ?_, ?_, ?_, rfl, rfl, ?_⟩
  · rw [allocateRun_spec]
  · rw [allocateRun_spec]
  · rw [allocateRun_spec]
  · rw [allocateRun_spec]
    exact List.nodup_range' _ _
  · intro f hf
    cases f with
    | ok => exact absurd rfl hf
    | onQuery => rfl
    | onUpdate => rfl
    | onCommit => rfl

/-- Witness for allocateNextDeviceID_sequence: a run of three allocations
from stored value five returns five, six, seven, and a failed allocation
leaves the state unchanged. -/
theorem allocateNextDeviceID_sequence_witness :
    (db.allocateRun { images := [], nextImageId := 1, nextDeviceId := 5 } 3).1 =
      [5, 6, 7] ∧
    (db.allocateNextDeviceID .onQuery
      { images := [], nextImageId := 1, nextDeviceId := 5 }).2 =
      { images := [], nextImageId := 1, nextDeviceId := 5 } := by
  refine ⟨?_, ?_⟩
  · rw [(allocateNextDeviceID_sequence { images := [], nextImageId := 1, nextDeviceId := 5 } 3).1]
    rfl
  · exact (allocateNextDeviceID_sequence
      { images := [], nextImageId := 1, nextDeviceId := 5 } 3).2.2.2.2.2.2
      .onQuery (by decide)

/-- Claim C6 (code bug): the cleanup operation never reaches a cleaned
status.  The schema's CHECK constraint admits only pending, downloading,
ready and failed, so the Update that writes the status string cleaned
fails for every input, cleanupImageResources returns an error, and a ready
row stays ready. -/
theorem cleanupImageResources_always_fails :
    db.validStatuses.contains "cleaned" = false ∧
    (∀ (env : commands.CleanupEnv) (st : db.DBState) (img : db.Image),
      ∃ e, commands.cleanupImageResources env st img = .error e) ∧
    (∀ (env : commands.CleanupEnv) (st : db.DBState) (img : db.Image),
      env.extractedRemoveFails = false → env.downloadRemoveFails = false →
      commands.cleanupImageResources env st img =
        .error "failed to update database: CHECK constraint failed: status") := by
  have hchk : ¬ db.validStatuses.contains "cleaned" = true := by decide
  refine ⟨by decide, ?_, ?_⟩
  · intro env st img
    rw [commands.cleanupImageResources]
    by_cases h1 : (env.extractedExists ∧ env.extractedRemoveFails : Prop)
    · exact ⟨"failed to remove extracted files", by rw [if_pos h1]⟩
    · rw [if_neg h1]
      by_cases h2 : (env.downloadExists ∧ env.downloadRemoveFails : Prop)
      · exact ⟨"failed to remove download", by rw [if_pos h2]⟩
      · rw [if_neg h2]
        refine ⟨"failed to update database: CHECK constraint failed: status", ?_⟩
        simp only [db.updateImage, if_pos hchk]
        rfl
  · intro env st img he hd
    rw [commands.cleanupImageResources,
      if_neg (by simp [he]), if_neg (by simp [hd])]
    simp only [db.updateImage, if_pos hchk]
    rfl

/-- Witness for cleanupImageResources_always_fails: cleaning a ready row
with recorded device and snapshot ids fails with the CHECK constraint
error, so the row is left with status ready. -/
theorem cleanupImageResources_always_fails_witness :
    commands.cleanupImageResources
      { dmPresent := true, extractedExists := true, extractedRemoveFails := false,
        downloadExists := true, downloadRemoveFails := false }
      { images := [{ id := 1, s3Key := "images/golang/2.tar", sha256 := "abc",
                     status := "ready", devicePath := "/dev/mapper/flyio-1",
                     baseDeviceID := 1, snapshotID := 2, errorMessage := "" }],
        nextImageId := 2, nextDeviceId := 3 }
      { id := 1, s3Key := "images/golang/2.tar", sha256 := "abc",
        status := "ready", devicePath := "/dev/mapper/flyio-1",
        baseDeviceID := 1, snapshotID := 2, errorMessage := "" } =
      .error "failed to update database: CHECK constraint failed: status" :=
  cleanupImageResources_always_fails.2.2 _ _ _ rfl rfl

end RegistryClaims

section ExtractorClaims

/-- Shared concrete validator configuration for the extraction examples. -/
def cfg100 : security.Config :=
  { maxFileSize := 1000, maxTotalSize := 10000, maxCompressionRate := 100 }

/-- Helper: the entry loop distributes over list append, stopping at the
first error. -/
lemma extractLoop_append (cfg : security.Config) (destDir : String) :
    ∀ (xs ys : List devicemapper.TarEntry) (total : Int) (ops : List devicemapper.FsOp),
      devicemapper.extractLoop cfg destDir (xs ++ ys) total ops =
        match devicemapper.extractLoop cfg destDir xs total ops with
        | { ops := ops1, total := t1, err := none } =>
            devicemapper.extractLoop cfg destDir ys t1 ops1
        | r => r := by
  intro xs
  induction xs with
  | nil => intro ys total ops; rfl
  | cons e tail ih =>
    intro ys total ops
    rw [List.cons_append, devicemapper.extractLoop, devicemapper.extractLoop]
    rcases hpe : devicemapper.processEntry cfg destDir total e with ⟨newOps, t, err?⟩
    cases err? with
    | some err => rfl
    | none => exact ih ys t (ops ++ newOps)

/-- Helper: a single entry never produces a remove operation. -/
lemma processEntry_no_remove (cfg : security.Config) (destDir : String)
    (total : Int) (e : devicemapper.TarEntry) (p : String) :
    devicemapper.FsOp.removeFile p ∉ (devicemapper.processEntry cfg destDir total e).1 := by
  rw [devicemapper.processEntry]
  rcases security.validatePath e.name with se | u
  · simp
  · cases e.typeflag <;> simp
    · rcases security.validateFileSize cfg e.size with se | u2
      · simp
      · rcases security.addExtractedSize cfg total e.size with ⟨t, r⟩
        cases r with
        | some se => simp
        | none =>
          by_cases hw : e.writeFails = true
          · simp [hw]
          · simp [hw]
    · rcases security.validateSymlink e.name e.linkname with se | u2
      · simp
      · simp

/-- Helper: the entry loop emits no remove operation beyond those already
accumulated. -/
lemma extractLoop_no_remove (cfg : security.Config) (destDir : String) :
    ∀ (entries : List devicemapper.TarEntry) (total : Int)
      (ops : List devicemapper.FsOp) (p : String),
      devicemapper.FsOp.removeFile p ∉ ops →
      devicemapper.FsOp.removeFile p ∉
        (devicemapper.extractLoop cfg destDir entries total ops).ops := by
  intro entries
  induction entries with
  | nil => intro total ops p hops; exact hops
  | cons e tail ih =>
    intro total ops p hops
    rw [devicemapper.extractLoop]
    have hpe := processEntry_no_remove cfg destDir total e p
    rcases hm : devicemapper.processEntry cfg destDir total e with ⟨newOps, t, err?⟩
    rw [hm] at hpe
    cases err? with
    | some err =>
      simp only [List.mem_append]
      rintro (h | h)
      · exact hops h
      · exact hpe h
    | none =>
      exact ih t (ops ++ newOps) p (by
        simp only [List.mem_append]
        rintro (h | h)
        · exact hops h
        · exact hpe h)

/-- Counterexample for claim C5: a regular-file entry whose content write
fails midway leaves the partially written file in the destination; the
operation trace ends with the partial write and contains no removal, so a
failed extraction does leave a partial file. -/
theorem failed_write_leaves_partial_file :
    (devicemapper.ExtractTarball cfg100 1024 "dest"
      [{ name := "a", typeflag := .reg, size := 10, linkname := "", writeFails := true }]) =
    { ops := [.mkdirAll "dest", .createFile "dest/a", .writePartial "dest/a"],
      total := 10,
      err := some (.writeFailed "dest/a") } := rfl

/-- Claim C5 (amended): on a mid-write failure the extractor closes the
partial file and returns the write error without deleting anything; the
extractor performs no remove operation on any input, so a failed
extraction can leave a partially written file in the destination tree. -/
theorem extractor_never_removes :
    (∀ (cfg : security.Config) (tarSize : Int) (destDir : String)
      (entries : List devicemapper.TarEntry) (p : String),
      devicemapper.FsOp.removeFile p ∉
        (devicemapper.ExtractTarball cfg tarSize destDir entries).ops) ∧
    (∀ (cfg : security.Config) (destDir : String) (total : Int)
      (e : devicemapper.TarEntry),
      e.typeflag = .reg → e.writeFails = true →
      security.validatePath e.name = .ok () →
      security.validateFileSize cfg e.size = .ok () →
      (security.addExtractedSize cfg total e.size).2 = none →
      devicemapper.processEntry cfg destDir total e =
        ([.mkdirAll (gopath.dir (gopath.join2 destDir e.name)),
          .createFile (gopath.join2 destDir e.name),
          .writePartial (gopath.join2 destDir e.name)],
         total + e.size,
         some (.writeFailed (gopath.join2 destDir e.name)))) := by
  constructor
  · intro cfg tarSize destDir entries p
    rw [devicemapper.ExtractTarball]
    have hloop := extractLoop_no_remove cfg destDir entries 0 [] p (by simp)
    rcases hr : devicemapper.extractLoop cfg destDir entries 0 [] with ⟨ops1, t1, err?⟩
    rw [hr] at hloop
    cases err? with
    | some err => exact hloop
    | none =>
      rcases security.validateCompression cfg tarSize t1 with se | u
      · exact hloop
      · exact hloop
  · intro cfg destDir total e htype hw hvp hvs hadd
    rw [devicemapper.processEntry, hvp, htype, hvs]
    rcases hm : security.addExtractedSize cfg total e.size with ⟨t, r⟩
    rw [hm] at hadd
    simp only at hadd
    subst hadd
    have ht : t = total + e.size := by
      have := congrArg Prod.fst hm
      simpa [security.addExtractedSize] using this.symm
    rw [ht] at *
    simp [hw]

/-- Witness for extractor_never_removes: the remove-free trace of a
concrete failing extraction, and the concrete partial-write trace of its
failing entry. -/
theorem extractor_never_removes_witness :
    devicemapper.FsOp.removeFile "dest/a" ∉
      (devicemapper.ExtractTarball cfg100 1024 "dest"
        [{ name := "a", typeflag := .reg, size := 10, linkname := "", writeFails := true }]).ops ∧
    devicemapper.processEntry cfg100 "dest" 0
      { name := "a", typeflag := .reg, size := 10, linkname := "", writeFails := true } =
      ([.mkdirAll "dest", .createFile "dest/a", .writePartial "dest/a"],
       10, some (.writeFailed "dest/a")) := by
  constructor
  · exact extractor_never_removes.1 cfg100 1024 "dest" _ "dest/a"
  · have h := extractor_never_removes.2 cfg100 "dest" 0
      { name := "a", typeflag := .reg, size := 10, linkname := "", writeFails := true }
      rfl rfl rfl rfl rfl
    simpa using h

end ExtractorClaims

section PathViolationClaims

/-- Counterexample for claim C3: an archive whose second entry has an
absolute name fails with the PathViolation kind, but the first entry has
already been written to the destination by the time extraction aborts, so
the trace is not empty. -/
theorem pathViolation_after_earlier_writes :
    (devicemapper.ExtractTarball cfg100 1024 "dest"
      [{ name := "a", typeflag := .reg, size := 10, linkname := "", writeFails := false },
       { name := "/etc/passwd", typeflag := .dir, size := 0, linkname := "", writeFails := false }]) =
    { ops := [.mkdirAll "dest", .createFile "dest/a", .writeFile "dest/a" 10],
      total := 10,
      err := some (.security (.absolutePath "/etc/passwd")) } ∧
    (devicemapper.ExtractTarball cfg100 1024 "dest"
      [{ name := "a", typeflag := .reg, size := 10, linkname := "", writeFails := false },
       { name := "/etc/passwd", typeflag := .dir, size := 0, linkname := "", writeFails := false }]).ops ≠ [] :=
  ⟨rfl, by decide⟩

/-- Claim C3 (amended): when an archive contains an entry that ValidatePath
rejects (canonicalized absolute name or a name beginning with dotdot) and
every entry before it extracts without failure, extraction aborts with
that PathViolation error exactly at the offending entry: the operations
performed are precisely those of the preceding entries, and nothing at or
after the offending entry is written. -/
theorem pathViolation_aborts_at_offender (cfg : security.Config) (tarSize : Int)
    (destDir : String) (pre rest : List devicemapper.TarEntry)
    (bad : devicemapper.TarEntry) (se : security.SecurityError)
    (hbad : security.validatePath bad.name = .error se)
    (hpre : (devicemapper.extractLoop cfg destDir pre 0 []).err = none) :
    devicemapper.ExtractTarball cfg tarSize destDir (pre ++ bad :: rest) =
      { ops := (devicemapper.extractLoop cfg destDir pre 0 []).ops,
        total := (devicemapper.extractLoop cfg destDir pre 0 []).total,
        err := some (.security se) } := by
  rw [devicemapper.ExtractTarball]
  rw [extractLoop_append]
  rcases hr : devicemapper.extractLoop cfg destDir pre 0 [] with ⟨ops1, t1, err?⟩
  rw [hr] at hpre
  simp only at hpre
  subst hpre
  have hstep : devicemapper.extractLoop cfg destDir (bad :: rest) t1 ops1 =
      { ops := ops1, total := t1, err := some (.security se) } := by
    rw [devicemapper.extractLoop, devicemapper.processEntry, hbad]
    simp
  simp only [hstep]

/-- Witness for pathViolation_aborts_at_offender: the concrete two-entry
archive of the counterexample, aborted at its absolute-path entry with the
write trace of the first entry intact. -/
theorem pathViolation_aborts_at_offender_witness :
    devicemapper.ExtractTarball cfg100 1024 "dest"
      ([{ name := "a", typeflag := .reg, size := 10, linkname := "", writeFails := false }] ++
       { name := "/etc/passwd", typeflag := devicemapper.TarType.dir, size := 0,
         linkname := "", writeFails := false } ::
       [{ name := "b", typeflag := .dir, size := 0, linkname := "", writeFails := false }]) =
      { ops := (devicemapper.extractLoop cfg100 "dest"
          [{ name := "a", typeflag := .reg, size := 10, linkname := "", writeFails := false }] 0 []).ops,
        total := (devicemapper.extractLoop cfg100 "dest"
          [{ name := "a", typeflag := .reg, size := 10, linkname := "", writeFails := false }] 0 []).total,
        err := some (.security (.absolutePath "/etc/passwd")) } :=
  pathViolation_aborts_at_offender cfg100 1024 "dest" _ _ _ _ rfl rfl

/-- Counterexample for claim C8: an archive consisting of one
character-device entry extracts without error and without writing
anything, while the claim says character-device entries make extraction
fail. -/
theorem chr_entry_extraction_succeeds :
    devicemapper.ExtractTarball cfg100 1024 "dest"
      [{ name := "dev/tty", typeflag := .chr, size := 0, linkname := "", writeFails := false }] =
    { ops := [], total := 0, err := none } := rfl

/-- Claim C8 (amended): the extractor's switch handles only directory,
regular-file and symlink entries; hard links, character devices, block
devices, fifos and every other uncommon type fall through and are skipped
silently, with nothing materialized and no error. -/
theorem uncommon_entries_skipped (cfg : security.Config) (destDir : String)
    (total : Int) (e : devicemapper.TarEntry)
    (htype : e.typeflag = .link ∨ e.typeflag = .chr ∨ e.typeflag = .blk ∨
      e.typeflag = .fifo ∨ e.typeflag = .other)
    (hvp : security.validatePath e.name = .ok ()) :
    devicemapper.processEntry cfg destDir total e = ([], total, none) := by
  rw [devicemapper.processEntry, hvp]
  rcases htype with h | h | h | h | h <;> rw [h]

/-- Witness for uncommon_entries_skipped: a hard-link entry is skipped
with no operations. -/
theorem uncommon_entries_skipped_witness :
    devicemapper.processEntry cfg100 "dest" 0
      { name := "bin/gzip", typeflag := .link, size := 0,
        linkname := "bin/zcat", writeFails := false } = ([], 0, none) :=
  uncommon_entries_skipped cfg100 "dest" 0 _ (Or.inl rfl) rfl

end PathViolationClaims

section PipelineClaims

/-- Shared empty starting world: fresh registry (sequence seeded at one)
and no fetches performed. -/
def emptyWorld : fsm.World := { db := { images := [] }, fetchCount := 0 }

/-- Environment of a fully successful activation on the full platform:
download succeeds, the archive is benign, copy succeeds, and every
manager operation succeeds. -/
def happyEnv : fsm.Env :=
  { workDir := "/work", maxRetries := 3, dmManager := some fsm.okManager,
    downloadResult := .ok ("abc123", 100),
    archive := [{ name := "rootfs", typeflag := .dir, size := 0, linkname := "", writeFails := false },
                { name := "rootfs/app", typeflag := .reg, size := 10, linkname := "", writeFails := false }],
    archiveSize := 100, copyResult := .ok (), cfg := cfg100 }

/-- Claim C10: on the degraded platform, a create_device run that reaches
a non-nil stub manager allocates a base id from the shared sequence before
the manager call fails, then returns success having only recorded a
warning on the response: the registry rows are untouched (device_path,
base_device_id and snapshot_id unchanged) while the stored sequence value
advances by one. -/
theorem createDevice_stub_consumes_id (env : fsm.Env) (goos : String)
    (retryCount : Nat) (s3Key : String) (resp : fsm.ImageResponse) (w : fsm.World)
    (hmgr : env.dmManager = some (fsm.stubManager goos))
    (hretry : retryCount < env.maxRetries) :
    fsm.handleCreateDevice env retryCount s3Key (some resp) w =
      (.ok { resp with errorMessage :=
          "devicemapper warning: " ++ ("devicemapper not supported on " ++ goos) },
       { w with db := { w.db with nextDeviceId := w.db.nextDeviceId + 1 } }) := by
  rw [fsm.handleCreateDevice, if_neg (Nat.not_le.mpr hretry)]
  rw [hmgr]
  rfl

/-- Witness for createDevice_stub_consumes_id: a concrete degraded run
from the empty world consumes id one and leaves the (empty) images table
unchanged. -/
theorem createDevice_stub_consumes_id_witness :
    fsm.handleCreateDevice
      { happyEnv with dmManager := some (fsm.stubManager "darwin") }
      0 "img.tar" (some {}) emptyWorld =
      (.ok { errorMessage :=
          "devicemapper warning: " ++ ("devicemapper not supported on " ++ "darwin") },
       { emptyWorld with db := { emptyWorld.db with nextDeviceId := 2 } }) :=
  createDevice_stub_consumes_id _ "darwin" 0 "img.tar" {} emptyWorld rfl (by decide)

end PipelineClaims

section ReadyInvariantClaims

/-- Helper: appending to a non-empty string cannot give the empty string. -/
lemma append_ne_empty (a : String) (ha : a.length ≠ 0) (b : String) : (a ++ b) ≠ "" := by
  intro h
  have h2 := congrArg String.length h
  rw [String.length_append] at h2
  have h4 : "".length = 0 := rfl
  rw [h4] at h2
  omega

/-- Image row as it stands after the first four transitions of a fully
successful activation started with sequence value s: digest persisted,
status downloading, base device s recorded with its mapper path. -/
def img4 (s : Nat) : db.Image :=
  { id := 1, s3Key := "img.tar", sha256 := "abc123", status := "downloading",
    devicePath := "/dev/mapper/flyio-" ++ toString s, baseDeviceID := s,
    snapshotID := 0, errorMessage := "" }

/-- World after the first four transitions of a fully successful
activation started with sequence value s. -/
def wAfter4 (s : Nat) : fsm.World :=
  { db := { images := [img4 s], nextImageId := 2, nextDeviceId := s + 1 }, fetchCount := 1 }

/-- Response after the first four transitions of a fully successful
activation started with sequence value s. -/
def resp4 (s : Nat) : fsm.ImageResponse :=
  { imageID := 1, sha256 := "abc123", downloadPath := "/work/downloads/img.tar",
    downloadSize := 100,
    extractedPath := gopath.join2 (gopath.join2 "/work" "mounts") (toString s),
    devicePath := "/dev/mapper/flyio-" ++ toString s, snapshotID := 0,
    status := "", errorMessage := "" }

/-- Manager whose device creation fails with a kernel error that is not
PlatformUnsupported (its message does not contain the text
not supported); the remaining operations behave as on a healthy pool. -/
def kernelErrManager : fsm.ManagerModel :=
  { fsm.okManager with createDevice := fun _ => .error "permission denied: dmsetup create failed" }

/-- Environment identical to the happy one except that device creation
fails with the kernel error of kernelErrManager. -/
def kernelErrEnv : fsm.Env := { happyEnv with dmManager := some kernelErrManager }

/-- Counterexample for claim C1: running the pipeline with an operational
(non-stub) manager whose create_device call fails with a kernel error
other than PlatformUnsupported still ends with a row of status ready whose
device_path is empty and whose base_device_id and snapshot_id are both
zero, because handleCreateDevice swallows every manager error and
handleComplete then skips the snapshot branch and marks the row ready. -/
theorem kernel_error_still_marks_ready :
    (fsm.runPipeline kernelErrEnv "img.tar" emptyWorld).2.db.images =
      [{ id := 1, s3Key := "img.tar", sha256 := "abc123", status := db.StatusReady,
         devicePath := "", baseDeviceID := 0, snapshotID := 0, errorMessage := "" }] ∧
    gostrings.goContains "permission denied: dmsetup create failed" "not supported" = false ∧
    (fsm.runPipeline kernelErrEnv "img.tar" emptyWorld).1 =
      .ok { imageID := 1, sha256 := "abc123",
            downloadPath := "/work/downloads/img.tar", downloadSize := 100,
            extractedPath := "/work/extracted/img.tar", devicePath := "",
            snapshotID := 0, status := db.StatusReady,
            errorMessage := "devicemapper warning: permission denied: dmsetup create failed" } :=
  ⟨rfl, rfl, rfl⟩

/-- Claim C1 (amended): the ready-row invariant holds for activations in
which the create_device manager call succeeded: a fully successful run on
the full platform, started with any sequence value s of at least one,
leaves the row ready with the non-empty mapper path of device s,
base_device_id s non-zero, snapshot_id s plus one non-zero, and the two
ids distinct.  When the manager call fails (with PlatformUnsupported or
any kernel error alike) the handler continues without persisting device
fields, so a ready row with empty device_path and zero ids results
instead (see the counterexample). -/
theorem ready_invariant_on_success (s : Nat) (hs : 1 ≤ s) :
    (fsm.runPipeline happyEnv "img.tar"
      { db := { images := [], nextImageId := 1, nextDeviceId := s }, fetchCount := 0 }).2.db.images =
      [{ id := 1, s3Key := "img.tar", sha256 := "abc123", status := db.StatusReady,
         devicePath := "/dev/mapper/flyio-" ++ toString s,
         baseDeviceID := s, snapshotID := s + 1, errorMessage := "" }] ∧
    ("/dev/mapper/flyio-" ++ toString s) ≠ "" ∧
    s ≠ 0 ∧ s + 1 ≠ 0 ∧ s ≠ s + 1 := by
  have hne : ("/dev/mapper/flyio-" ++ toString s) ≠ "" :=
    append_ne_empty _ (by decide) _
  have hstage : fsm.runPipeline happyEnv "img.tar"
      { db := { images := [], nextImageId := 1, nextDeviceId := s }, fetchCount := 0 } =
      fsm.handleComplete happyEnv 0 "img.tar" (some (resp4 s)) (wAfter4 s) := rfl
  refine ⟨?_, hne, by omega, by omega, by omega⟩
  rw [hstage]
  simp [fsm.handleComplete, fsm.markReady, fsm.okManager, happyEnv, resp4, wAfter4, img4,
    db.getByS3Key, db.allocateNextDeviceID, db.updateImage, db.updateStatus,
    db.validStatuses, db.StatusReady, db.StatusPending, db.StatusDownloading, db.StatusFailed,
    List.find?, hne]

/-- Witness for ready_invariant_on_success at the seeded sequence value
one: the scenario of the specification's happy path, giving base device
one and snapshot two. -/
theorem ready_invariant_on_success_witness :
    (fsm.runPipeline happyEnv "img.tar"
      { db := { images := [], nextImageId := 1, nextDeviceId := 1 }, fetchCount := 0 }).2.db.images =
      [{ id := 1, s3Key := "img.tar", sha256 := "abc123", status := db.StatusReady,
         devicePath := "/dev/mapper/flyio-" ++ toString 1,
         baseDeviceID := 1, snapshotID := 1 + 1, errorMessage := "" }] ∧
    ("/dev/mapper/flyio-" ++ toString 1) ≠ "" ∧
    (1 : Nat) ≠ 0 ∧ (1 : Nat) + 1 ≠ 0 ∧ (1 : Nat) ≠ 1 + 1 :=
  ready_invariant_on_success 1 (by decide)

/-- Claim C2 (code bug): no handler after check_db short-circuits on a
ready row.  After a fully successful first activation (one fetch, row
ready with base device one, path flyio-1, snapshot two), invoking the
pipeline a second time with the same key performs a second object-store
fetch, allocates a fresh base device id three, and overwrites the row's
device_path and base_device_id with the new device while reusing
snapshot_id two: the persisted triple changes and the fetch count reaches
two. -/
theorem second_run_refetches_and_reallocates :
    (fsm.runPipeline happyEnv "img.tar" emptyWorld).2.fetchCount = 1 ∧
    (fsm.runPipeline happyEnv "img.tar" emptyWorld).2.db.images =
      [{ id := 1, s3Key := "img.tar", sha256 := "abc123", status := db.StatusReady,
         devicePath := "/dev/mapper/flyio-1", baseDeviceID := 1,
         snapshotID := 2, errorMessage := "" }] ∧
    (fsm.runPipeline happyEnv "img.tar"
        (fsm.runPipeline happyEnv "img.tar" emptyWorld).2).2.fetchCount = 2 ∧
    (fsm.runPipeline happyEnv "img.tar"
        (fsm.runPipeline happyEnv "img.tar" emptyWorld).2).2.db.images =
      [{ id := 1, s3Key := "img.tar", sha256 := "abc123", status := db.StatusReady,
         devicePath := "/dev/mapper/flyio-3", baseDeviceID := 3,
         snapshotID := 2, errorMessage := "" }] :=
  ⟨rfl, rfl, rfl, rfl⟩

end ReadyInvariantClaims
